import Mathlib

/-!
Shallow embedding of `src/mcp-server-python/server.py` (Windsurf Ask Continue
MCP server).  The embedding models the request/response coordination core:

* `discover_extension_ports` — marker-file port discovery with default fallback;
* `portStep` / `connectPorts` / `try_connect_extension` — one connect round
  over the discovered candidates (`try_connect_extension` in the source);
* `connectLoopAux` / `connectLoop` — the bounded retry loop inside
  `request_user_input`;
* `do_POST` — the `/response` branch of `CallbackHandler.do_POST`, acting on
  the registry state (`pending_requests`, `main_loop`);
* `request_user_input` — the coordinator: register, connect, wait for the
  callback to resolve the future;
* `start_callback_server` — the callback listener's port-probing bind loop.

External effects (the filesystem, the network, bind attempts) are passed in as
explicit values: a directory listing, a per-port network oracle, a per-port
bind oracle.  Futures are modelled by recording which pending id was resolved
and to what value (`FutureVal`), mirroring `future.set_result` /
`future.set_exception`.
-/

namespace AskContinue

/-- `DEFAULT_EXTENSION_PORT = 23983` in the source. -/
def DEFAULT_EXTENSION_PORT : Int := 23983

/-- `CALLBACK_PORT_START = 23984` in the source. -/
def CALLBACK_PORT_START : Nat := 23984

/-- `MAX_RETRY_COUNT = 5` in the source. -/
def MAX_RETRY_COUNT : Nat := 5

/-- `RETRY_INTERVAL = 5` (seconds) in the source. -/
def RETRY_INTERVAL : Nat := 5

/-! ## Port discovery (`discover_extension_ports`) -/

/-- `filename.endswith(".port")`, as a character-level suffix test. -/
def endsWithPort (name : String) : Bool :=
  List.isSuffixOf ".port".data name.data

/-- One marker file in the port directory: its filename and the result of
`json.load(f); data.get("port")` — `none` when the file fails to parse, is not
an object, or has no `port` key; `some p` when a port value `p` was read.
A port of `0` is falsy in Python and is skipped by `if port:`. -/
def markerPort (file : String × Option Int) : Option Int :=
  if endsWithPort file.1 = true then
    match file.2 with
    | some p => if p ≠ 0 then some p else none
    | none => none
  else none

/-- `discover_extension_ports()`: the directory state is `none` when
`os.path.exists(PORT_FILE_DIR)` is false, otherwise the list of files
(filename, parsed port).  Falls back to `[DEFAULT_EXTENSION_PORT]` when no
valid entry is found. -/
def discover_extension_ports (dirState : Option (List (String × Option Int))) :
    List Int :=
  let ports :=
    match dirState with
    | none => []
    | some files => files.filterMap markerPort
  if ports = [] then [DEFAULT_EXTENSION_PORT] else ports

/-! ## One connection attempt per candidate (`try_connect_extension` body) -/

/-- The observable result of the HTTP POST to one candidate port, as seen by
the `try`/`except` structure in `try_connect_extension`:
connection refusal (`httpx.ConnectError`), timeout (`httpx.TimeoutException`),
any other exception with message `msg` (this includes a body that fails
`response.json()`), or an HTTP response with status code `status` whose JSON
body yields `success` (`result.get("success")` truthiness), `error` and
`details` fields. -/
inductive ConnResult
  | connectError
  | timeoutExc
  | otherExc (msg : String)
  | http (status : Nat) (success : Bool) (error : Option String)
      (details : Option String)
deriving DecidableEq, Repr

/-- What one iteration of the candidate loop does: return `(True, None)`
(accepted), or continue, either recording a new `last_error`
(`failed (some e)`) or leaving `last_error` untouched (`failed none`). -/
inductive PortStep
  | accepted
  | failed (newError : Option String)
deriving DecidableEq, Repr

/-- The `last_error` text recorded for an HTTP 500 response:
`f"扩展返回错误: {result.get('error', '未知')} - {result.get('details', '')}"`. -/
def refusedMsg (error details : Option String) : String :=
  "扩展返回错误: " ++ error.getD "未知" ++ " - " ++ details.getD ""

/-- The `last_error` text for `httpx.ConnectError`: `f"无法连接到端口 {port}"`. -/
def unreachableMsg (port : Int) : String :=
  "无法连接到端口 " ++ toString port

/-- The `last_error` text for `httpx.TimeoutException`: `f"连接端口 {port} 超时"`. -/
def timeoutMsg (port : Int) : String :=
  "连接端口 " ++ toString port ++ " 超时"

/-- One iteration of the `for port in extension_ports:` loop in
`try_connect_extension`: status 200 with a truthy `success` returns success;
status 500 records the companion's error; any other status falls through the
`if`/`elif` without touching `last_error`; the three exception arms record
their messages. -/
def portStep (port : Int) (r : ConnResult) : PortStep :=
  match r with
  | .connectError => .failed (some (unreachableMsg port))
  | .timeoutExc => .failed (some (timeoutMsg port))
  | .otherExc msg => .failed (some msg)
  | .http status success error details =>
    if status = 200 then
      if success then .accepted else .failed none
    else if status = 500 then .failed (some (refusedMsg error details))
    else .failed none

/-- The candidate loop of `try_connect_extension`, threading `last_error`:
stops with `(true, none)` at the first accepted candidate, otherwise finishes
the list and returns `(false, last_error)`. -/
def connectPorts : List (Int × ConnResult) → Option String → Bool × Option String
  | [], lastError => (false, lastError)
  | (p, r) :: rest, lastError =>
    match portStep p r with
    | .accepted => (true, none)
    | .failed newError =>
      connectPorts rest (match newError with | some e => some e | none => lastError)

/-- The external state one retry round sees: the marker directory at that
moment and, for each port, the outcome of POSTing to it. -/
structure Round where
  dirState : Option (List (String × Option Int))
  net : Int → ConnResult

/-- `try_connect_extension(request_id, reason)`: re-runs discovery, then tries
every discovered candidate in order. -/
def try_connect_extension (rd : Round) : Bool × Option String :=
  connectPorts ((discover_extension_ports rd.dirState).map (fun p => (p, rd.net p))) none

/-! ## The retry loop inside `request_user_input` -/

/-- Observable trace of the retry loop: whether some round was accepted, the
final value of the `last_error` variable, how many rounds ran, and how many
`asyncio.sleep(RETRY_INTERVAL)` calls happened. -/
structure ConnectTrace where
  connected : Bool
  lastErr : Option String
  rounds : Nat
  sleeps : Nat
deriving DecidableEq, Repr

/-- `for attempt in range(1, MAX_RETRY_COUNT + 1):` — `fuel` is the number of
attempts still available, `attempt` the 1-based attempt number.  On success the
loop breaks (leaving `last_error` as recorded by the previous failed round); on
failure it overwrites `last_error` with this round's error and, when
`attempt < MAX_RETRY_COUNT`, sleeps before the next round. -/
def connectLoopAux (env : Nat → Round) :
    Nat → Nat → Option String → Nat → ConnectTrace
  | 0, attempt, lastErr, sleeps =>
    { connected := false, lastErr := lastErr, rounds := attempt - 1, sleeps := sleeps }
  | fuel + 1, attempt, lastErr, sleeps =>
    if (try_connect_extension (env attempt)).1 then
      { connected := true, lastErr := lastErr, rounds := attempt, sleeps := sleeps }
    else
      connectLoopAux env fuel (attempt + 1) (try_connect_extension (env attempt)).2
        (if attempt < MAX_RETRY_COUNT then sleeps + 1 else sleeps)

/-- The whole retry loop of `request_user_input`, starting at attempt 1 with
`last_error = None`.  `env n` is the external state (directory, network) seen
by round `n`. -/
def connectLoop (env : Nat → Round) : ConnectTrace :=
  connectLoopAux env MAX_RETRY_COUNT 1 none 0

/-- The error message built on overall connect failure:
`f"无法连接到 VS Code 扩展（已重试 {MAX_RETRY_COUNT} 次）。{last_error or ''}"`. -/
def connectFailMsg (lastErr : Option String) : String :=
  "无法连接到 VS Code 扩展（已重试 " ++ toString MAX_RETRY_COUNT ++ " 次）。"
    ++ lastErr.getD ""

/-! ## The `/response` callback handler (`CallbackHandler.do_POST`) -/

/-- What a resolved future holds: `future.set_result(user_input)` or
`future.set_exception(Exception("用户取消了对话"))`. -/
inductive FutureVal
  | result (s : String)
  | exc (msg : String)
deriving DecidableEq, Repr

/-- The message of the exception set on cancellation. -/
def cancelMsg : String := "用户取消了对话"

/-- The module-level state the handler touches: the keys of
`pending_requests` (dict keys, hence no duplicates in any reachable state) and
whether `main_loop` has been set (truthy). -/
structure ListenerState where
  pending : List String
  hasLoop : Bool
deriving DecidableEq, Repr

/-- The body of a POST to `/response`, after `json.loads`:
`malformed e` when `json.loads(body)` raises, or the body is not an object so
the `data.get` calls raise (the `except` branch with `str(e) = e`);
otherwise the extracted `data.get("requestId")` (absent key gives `none`),
`data.get("userInput", "")` and `data.get("cancelled", False)`. -/
inductive Body
  | malformed (errMsg : String)
  | parsed (requestId : Option String) (userInput : String) (cancelled : Bool)
deriving DecidableEq, Repr

/-- Everything observable about one handled POST: HTTP status, the `error`
field of the JSON reply (`none` when the reply is `{"success": true}`), the
registry keys afterwards, and which pending id (if any) had its future
resolved, with what. -/
structure PostOutcome where
  status : Nat
  errBody : Option String
  pending : List String
  resolution : Option (String × FutureVal)
deriving DecidableEq, Repr

/-- The `/response` branch of `CallbackHandler.do_POST`.  A parse failure is
answered 400 with the exception text.  Otherwise, only when
`request_id in pending_requests and main_loop` does the handler pop the entry
and resolve its future (exception on `cancelled`, result otherwise) and answer
200; in every other case it answers 404 `{"error": "Request not found"}` and
touches nothing.  A missing `requestId` gives `request_id = None`, which is
never a dict key, hence also the 404 branch. -/
def do_POST (s : ListenerState) (b : Body) : PostOutcome :=
  match b with
  | .malformed e => { status := 400, errBody := some e, pending := s.pending, resolution := none }
  | .parsed requestId userInput cancelled =>
    match requestId with
    | some r =>
      if r ∈ s.pending ∧ s.hasLoop = true then
        { status := 200, errBody := none, pending := s.pending.erase r,
          resolution := some (r, if cancelled then .exc cancelMsg else .result userInput) }
      else
        { status := 404, errBody := some "Request not found", pending := s.pending,
          resolution := none }
    | none =>
      { status := 404, errBody := some "Request not found", pending := s.pending,
        resolution := none }

/-! ## The coordinator (`request_user_input`) -/

/-- `request_user_input(reason)` for one ask, with the generated
`request_id = rid` passed in explicitly.  The function registers `rid`, runs
the retry loop, and on failure pops `rid` and returns the failure message.  On
success it awaits the future without timeout; the eventual companion callback
(if any) is `callback`, processed by `do_POST` against the registry holding
`rid` with `main_loop` set (the server sets `main_loop` at startup, before any
tool call).  The value is `(some (success, text), registryAfter)`, with
`none` in the first component when the await never returns (no callback ever
resolves the future). -/
def request_user_input (rid : String) (env : Nat → Round)
    (callback : Option Body) : Option (Bool × String) × List String :=
  let trace := connectLoop env
  if trace.connected then
    match callback with
    | none => (none, [rid])
    | some b =>
      let out := do_POST { pending := [rid], hasLoop := true } b
      match out.resolution with
      | some (_, .result s) => (some (true, s), out.pending)
      | some (_, .exc m) => (some (false, m), out.pending)
      | none => (none, out.pending)
  else
    (some (false, connectFailMsg trace.lastErr), [])

/-! ## The callback listener's bind loop (`start_callback_server`) -/

/-- The outcome of one `HTTPServer(("127.0.0.1", port), CallbackHandler)`
construction: success, `OSError` with `errno` in `(10048, 48, 98)`
(address in use), any other `OSError`, or any other exception. -/
inductive BindResult
  | bindOk
  | addrInUse
  | otherOSError (msg : String)
  | otherExc (msg : String)
deriving DecidableEq, Repr

/-- Observable outcome of `start_callback_server`: whether
`callback_server_ready.set()` ran, the port saved into
`current_callback_port` (`none` when never reassigned), and how many bind
attempts were made. -/
structure SrvOutcome where
  ready : Bool
  boundPort : Option Nat
  attempts : Nat
deriving DecidableEq, Repr

/-- `max_retries = 50` in `start_callback_server`. -/
def bind_max_retries : Nat := 50

/-- The `for i in range(max_retries):` loop: on a successful bind, save the
port, signal readiness and serve; on address-in-use, move to the next port; on
any other error, signal readiness and stop.  When the range is exhausted the
loop simply ends — note that no readiness signal is emitted on that path. -/
def bindLoopAux (env : Nat → BindResult) : Nat → Nat → Nat → SrvOutcome
  | 0, _, tried => { ready := false, boundPort := none, attempts := tried }
  | fuel + 1, port, tried =>
    match env port with
    | .bindOk => { ready := true, boundPort := some port, attempts := tried + 1 }
    | .addrInUse => bindLoopAux env fuel (port + 1) (tried + 1)
    | .otherOSError _ => { ready := true, boundPort := none, attempts := tried + 1 }
    | .otherExc _ => { ready := true, boundPort := none, attempts := tried + 1 }

/-- `start_callback_server()`: probe from `CALLBACK_PORT_START`, at most
`bind_max_retries` attempts.  `env p` is what binding port `p` does. -/
def start_callback_server (env : Nat → BindResult) : SrvOutcome :=
  bindLoopAux env bind_max_retries CALLBACK_PORT_START 0

/-! ## Concrete environments used to instantiate the theorems -/

/-- An environment in which every round finds no marker directory and the
default port answers 200 `{"success": true}`. -/
def envAccept : Nat → Round :=
  fun _ => { dirState := none, net := fun _ => .http 200 true none none }

/-- An environment in which every round finds no marker directory and every
port refuses the TCP connection. -/
def envRefuse : Nat → Round :=
  fun _ => { dirState := none, net := fun _ => .connectError }

end AskContinue

namespace AskContinue

/-! ## Theorems -/

/-- C1: At most one resolution per pending request.  A `/response` whose
`requestId` is not a key of `pending_requests` — in particular one whose id
was already resolved and popped — is answered 404 `{"error": "Request not
found"}`, leaves the registry untouched and resolves no future; and after a
first callback resolves and removes an id, a second callback with the same id
lands in exactly that branch. -/
theorem resultSlot_resolved_at_most_once :
    (∀ (s : ListenerState) (r userInput : String) (c : Bool),
      r ∉ s.pending →
      do_POST s (.parsed (some r) userInput c) =
        { status := 404, errBody := some "Request not found", pending := s.pending,
          resolution := none })
    ∧ (∀ (s : ListenerState) (r u1 u2 : String) (c1 c2 : Bool),
        s.pending.Nodup → r ∈ s.pending → s.hasLoop = true →
        (do_POST s (.parsed (some r) u1 c1)).resolution =
          some (r, if c1 then .exc cancelMsg else .result u1)
        ∧ do_POST { pending := (do_POST s (.parsed (some r) u1 c1)).pending,
                    hasLoop := s.hasLoop } (.parsed (some r) u2 c2) =
            { status := 404, errBody := some "Request not found",
              pending := (do_POST s (.parsed (some r) u1 c1)).pending,
              resolution := none }) := by
  constructor
  · intro s r userInput c h
    simp [do_POST, h]
  · intro s r u1 u2 c1 c2 hnd hin hloop
    have hout : do_POST s (.parsed (some r) u1 c1) =
        { status := 200, errBody := none, pending := s.pending.erase r,
          resolution := some (r, if c1 then .exc cancelMsg else .result u1) } := by
      simp [do_POST, hin, hloop]
    have hnot : r ∉ s.pending.erase r := hnd.not_mem_erase
    refine ⟨by rw [hout], ?_⟩
    rw [hout]
    simp [do_POST, hnot]

/-- C1 witness: a first callback for `req_a` resolves it to `"hi"`; a second
callback for the same id is answered 404 with no further resolution. -/
theorem resultSlot_resolved_at_most_once_witness :
    (do_POST ⟨["req_a"], true⟩ (.parsed (some "req_a") "hi" false)).resolution =
      some ("req_a", .result "hi")
    ∧ do_POST ⟨(do_POST ⟨["req_a"], true⟩ (.parsed (some "req_a") "hi" false)).pending, true⟩
        (.parsed (some "req_a") "again" false) =
        { status := 404, errBody := some "Request not found",
          pending := (do_POST ⟨["req_a"], true⟩ (.parsed (some "req_a") "hi" false)).pending,
          resolution := none } := by
  have h := resultSlot_resolved_at_most_once.2 ⟨["req_a"], true⟩ "req_a" "hi" "again"
    false false (by decide) (by decide) rfl
  simpa using h

/-- C10: while `main_loop` is still `None`, a well-formed callback is answered
404 `Request not found` and mutates nothing, even when its `requestId` is
currently registered; the pop-and-resolve branch runs exactly when the id is
registered and `main_loop` is set. -/
theorem correlation_requires_loop :
    (∀ (s : ListenerState) (r userInput : String) (c : Bool),
      s.hasLoop = false → r ∈ s.pending →
      do_POST s (.parsed (some r) userInput c) =
        { status := 404, errBody := some "Request not found", pending := s.pending,
          resolution := none })
    ∧ (∀ (s : ListenerState) (r userInput : String) (c : Bool),
        (do_POST s (.parsed (some r) userInput c)).resolution.isSome = true ↔
          r ∈ s.pending ∧ s.hasLoop = true) := by
  constructor
  · intro s r userInput c hloop hin
    simp [do_POST, hloop]
  · intro s r userInput c
    by_cases h : r ∈ s.pending ∧ s.hasLoop = true
    · simp [do_POST, h]
    · simp only [do_POST]
      rw [if_neg h]
      simpa using h

/-- C10 witness: with the loop reference absent, a callback for the pending id
`req_a` is answered 404 and the registry keeps `req_a`. -/
theorem correlation_requires_loop_witness :
    do_POST ⟨["req_a"], false⟩ (.parsed (some "req_a") "hi" false) =
      { status := 404, errBody := some "Request not found", pending := ["req_a"],
        resolution := none } :=
  correlation_requires_loop.1 ⟨["req_a"], false⟩ "req_a" "hi" false rfl (by decide)

/-- C8 counterexample: the parseable body `{}` — it lacks the required
`requestId` field — sent while `req_a` is pending is answered with status 404,
not with the bad-request status 400 the claim states. -/
theorem missing_field_status_counterexample :
    (do_POST ⟨["req_a"], true⟩ (.parsed none "" false)).status = 404 ∧
    ¬ (do_POST ⟨["req_a"], true⟩ (.parsed none "" false)).status = 400 := by
  decide

/-- C8 (amended): a `/response` body that fails to parse is answered 400 with
the exception text, and a parseable body lacking `requestId` is answered 404
`Request not found`; in both cases no registry mutation and no resolution
happens, and the pending request is still resolvable by a subsequent
well-formed callback. -/
theorem malformed_callback_handling :
    (∀ (s : ListenerState) (e : String),
      do_POST s (.malformed e) =
        { status := 400, errBody := some e, pending := s.pending, resolution := none })
    ∧ (∀ (s : ListenerState) (u : String) (c : Bool),
        do_POST s (.parsed none u c) =
          { status := 404, errBody := some "Request not found", pending := s.pending,
            resolution := none })
    ∧ (∀ (s : ListenerState) (e r u : String) (c : Bool),
        r ∈ s.pending → s.hasLoop = true →
        (do_POST { pending := (do_POST s (.malformed e)).pending, hasLoop := s.hasLoop }
            (.parsed (some r) u c)).resolution =
          some (r, if c then FutureVal.exc cancelMsg else FutureVal.result u)) := by
  refine ⟨fun s e => rfl, fun s u c => rfl, fun s e r u c hin hloop => ?_⟩
  simp [do_POST, hin, hloop]

/-- C8 witness: after a malformed callback, `req_a` is still pending and a
well-formed callback resolves it to `"hi"`. -/
theorem malformed_callback_handling_witness :
    (do_POST ⟨(do_POST ⟨["req_a"], true⟩ (.malformed "boom")).pending, true⟩
        (.parsed (some "req_a") "hi" false)).resolution =
      some ("req_a", FutureVal.result "hi") := by
  have h := malformed_callback_handling.2.2 ⟨["req_a"], true⟩ "boom" "req_a" "hi" false
    (by decide) rfl
  simpa using h

/-- C6 counterexample: a candidate answering HTTP 404 with an error body is
not mapped to a Refused outcome carrying the companion's error text — the
candidate loop records no error at all for it (`failed none`). -/
theorem non_200_response_counterexample :
    portStep 9 (.http 404 false (some "boom") (some "d")) = .failed none ∧
    PortStep.failed none ≠ .failed (some (refusedMsg (some "boom") (some "d"))) := by
  decide

/-- C6 (amended): per-candidate outcome mapping of `try_connect_extension`:
connection refusal records `无法连接到端口 …`, timeout records
`连接端口 … 超时`, any other exception records its message, an HTTP 500
records the companion's reported error (`refusedMsg`), an HTTP 200 whose body
has a truthy `success` is the only acceptance, an HTTP 200 without it is
skipped with no error recorded, and any other status — 2xx or not — is
likewise skipped silently; a skipped candidate just moves the loop to the next
one. -/
theorem connect_outcome_mapping :
    (∀ (port : Int), portStep port .connectError = .failed (some (unreachableMsg port)))
    ∧ (∀ (port : Int), portStep port .timeoutExc = .failed (some (timeoutMsg port)))
    ∧ (∀ (port : Int) (m : String), portStep port (.otherExc m) = .failed (some m))
    ∧ (∀ (port : Int) (su : Bool) (er dt : Option String),
        portStep port (.http 500 su er dt) = .failed (some (refusedMsg er dt)))
    ∧ (∀ (port : Int) (er dt : Option String),
        portStep port (.http 200 true er dt) = .accepted)
    ∧ (∀ (port : Int) (er dt : Option String),
        portStep port (.http 200 false er dt) = .failed none)
    ∧ (∀ (port : Int) (st : Nat) (su : Bool) (er dt : Option String),
        st ≠ 200 → st ≠ 500 → portStep port (.http st su er dt) = .failed none)
    ∧ (∀ (p : Int) (r : ConnResult) (rest : List (Int × ConnResult)) (le : Option String),
        portStep p r = .failed none →
        connectPorts ((p, r) :: rest) le = connectPorts rest le) := by
  refine ⟨fun port => rfl, fun port => rfl, fun port m => rfl,
    fun port su er dt => rfl, fun port er dt => rfl, fun port er dt => rfl,
    fun port st su er dt h200 h500 => ?_, fun p r rest le h => ?_⟩
  · simp [portStep, h200, h500]
  · simp [connectPorts, h]

/-- C6 witness: a 201 response whose body even says success is skipped
silently — only an exact 200 can be accepted. -/
theorem connect_outcome_mapping_witness :
    portStep 1 (.http 201 true none none) = .failed none :=
  connect_outcome_mapping.2.2.2.2.2.2.1 1 201 true none none (by decide) (by decide)

/-- C7: `discover_extension_ports` is a pure function of the marker directory
(it never touches the registry).  It returns `[DEFAULT_EXTENSION_PORT]` when
the directory is absent or yields no valid entry, otherwise exactly one port
per valid `.port` marker file; a file that fails to parse (or lacks a truthy
port) contributes nothing, silently. -/
theorem discovery_behavior :
    (discover_extension_ports none = [DEFAULT_EXTENSION_PORT])
    ∧ (∀ files, files.filterMap markerPort = [] →
        discover_extension_ports (some files) = [DEFAULT_EXTENSION_PORT])
    ∧ (∀ files, files.filterMap markerPort ≠ [] →
        discover_extension_ports (some files) = files.filterMap markerPort)
    ∧ (∀ (name : String) (files : List (String × Option Int)),
        ((name, (none : Option Int)) :: files).filterMap markerPort =
          files.filterMap markerPort)
    ∧ (∀ (name : String) (p : Int) (files : List (String × Option Int)),
        endsWithPort name = true → p ≠ 0 →
        ((name, some p) :: files).filterMap markerPort =
          p :: files.filterMap markerPort) := by
  refine ⟨rfl, fun files h => ?_, fun files h => ?_, fun name files => ?_, ?_⟩
  · simp [discover_extension_ports, h]
  · simp [discover_extension_ports, h]
  · rw [List.filterMap_cons]
    have : markerPort (name, (none : Option Int)) = none := by
      simp [markerPort]
    rw [this]
  · intro name p files hend hp
    rw [List.filterMap_cons]
    have : markerPort (name, some p) = some p := by
      simp [markerPort, hend, hp]
    rw [this]

/-- One unrolling of the retry loop. -/
theorem connectLoopAux_succ (env : Nat → Round) (fuel attempt : Nat)
    (lastErr : Option String) (sleeps : Nat) :
    connectLoopAux env (fuel + 1) attempt lastErr sleeps =
      if (try_connect_extension (env attempt)).1 then
        { connected := true, lastErr := lastErr, rounds := attempt, sleeps := sleeps }
      else
        connectLoopAux env fuel (attempt + 1) (try_connect_extension (env attempt)).2
          (if attempt < MAX_RETRY_COUNT then sleeps + 1 else sleeps) := rfl

/-- When every remaining round fails, the loop exhausts its attempts: it ends
with `MAX_RETRY_COUNT` as the final round, `last_error` holding the final
round's error, and one sleep per failed non-final round. -/
theorem connectLoopAux_fail_char (env : Nat → Round) :
    ∀ (fuel attempt : Nat) (le : Option String) (sl : Nat),
      attempt + fuel = MAX_RETRY_COUNT + 1 → 1 ≤ fuel →
      (∀ j, attempt ≤ j → j ≤ MAX_RETRY_COUNT → (try_connect_extension (env j)).1 = false) →
      connectLoopAux env fuel attempt le sl =
        { connected := false,
          lastErr := (try_connect_extension (env MAX_RETRY_COUNT)).2,
          rounds := MAX_RETRY_COUNT,
          sleeps := sl + (fuel - 1) } := by
  intro fuel
  induction fuel with
  | zero => intro attempt le sl hsum hpos hf; omega
  | succ f ih =>
    intro attempt le sl hsum hpos hf
    have hle : attempt ≤ MAX_RETRY_COUNT := by omega
    have hfa : ¬ ((try_connect_extension (env attempt)).1 = true) := by
      simp [hf attempt le_rfl hle]
    rw [connectLoopAux_succ, if_neg hfa]
    cases f with
    | zero =>
      have hA : attempt = MAX_RETRY_COUNT := by omega
      subst hA
      rw [if_neg (by omega)]
      simp [connectLoopAux]
    | succ g =>
      rw [if_pos (by omega)]
      rw [ih (attempt + 1) _ _ (by omega) (by omega)
        (fun j hj hj2 => hf j (by omega) hj2)]
      simp only [ConnectTrace.mk.injEq, true_and]
      omega

/-- When round `k` is the first accepted round, the loop stops there: `k`
rounds, `last_error` as recorded by round `k - 1` (untouched when `k` is the
first round), and `k - 1` sleeps. -/
theorem connectLoopAux_success_char (env : Nat → Round) :
    ∀ (fuel attempt k : Nat) (le : Option String) (sl : Nat),
      attempt + fuel = MAX_RETRY_COUNT + 1 →
      attempt ≤ k → k ≤ MAX_RETRY_COUNT →
      (∀ j, attempt ≤ j → j < k → (try_connect_extension (env j)).1 = false) →
      (try_connect_extension (env k)).1 = true →
      connectLoopAux env fuel attempt le sl =
        { connected := true,
          lastErr := if k = attempt then le else (try_connect_extension (env (k - 1))).2,
          rounds := k,
          sleeps := sl + (k - attempt) } := by
  intro fuel
  induction fuel with
  | zero => intro attempt k le sl hsum hak hkM hf hs; omega
  | succ f ih =>
    intro attempt k le sl hsum hak hkM hf hs
    by_cases hk : k = attempt
    · subst hk
      rw [connectLoopAux_succ, if_pos hs]
      simp
    · have hlt : attempt < k := lt_of_le_of_ne hak (Ne.symm hk)
      have hfa : ¬ ((try_connect_extension (env attempt)).1 = true) := by
        simp [hf attempt le_rfl hlt]
      rw [connectLoopAux_succ, if_neg hfa, if_pos (show attempt < MAX_RETRY_COUNT by omega)]
      rw [ih (attempt + 1) k _ _ (by omega) hlt hkM
        (fun j hj hj2 => hf j (by omega) hj2) hs]
      simp only [ConnectTrace.mk.injEq, true_and]
      refine ⟨?_, by omega⟩
      by_cases h1 : k = attempt + 1
      · rw [if_pos h1, if_neg hk]
        have hEq : k - 1 = attempt := by omega
        rw [hEq]
      · rw [if_neg h1, if_neg hk]

/-- If some round within reach of the remaining fuel is accepted, the loop
ends connected. -/
theorem connectLoopAux_connected (env : Nat → Round) :
    ∀ (fuel attempt : Nat) (le : Option String) (sl : Nat) (k : Nat),
      attempt ≤ k → k < attempt + fuel →
      (try_connect_extension (env k)).1 = true →
      (connectLoopAux env fuel attempt le sl).connected = true := by
  intro fuel
  induction fuel with
  | zero => intro attempt le sl k h1 h2 h3; omega
  | succ f ih =>
    intro attempt le sl k h1 h2 h3
    rw [connectLoopAux_succ]
    by_cases hb : (try_connect_extension (env attempt)).1 = true
    · rw [if_pos hb]
    · rw [if_neg hb]
      have hne : attempt ≠ k := fun h => hb (h ▸ h3)
      exact ih (attempt + 1) _ _ k (by omega) (by omega) h3

/-- The loop never runs more rounds than it has fuel for. -/
theorem connectLoopAux_rounds_le (env : Nat → Round) :
    ∀ (fuel attempt : Nat) (le : Option String) (sl : Nat),
      1 ≤ attempt →
      (connectLoopAux env fuel attempt le sl).rounds ≤ attempt + fuel - 1 := by
  intro fuel
  induction fuel with
  | zero => intro attempt le sl h1; simp [connectLoopAux]
  | succ f ih =>
    intro attempt le sl h1
    rw [connectLoopAux_succ]
    by_cases hb : (try_connect_extension (env attempt)).1 = true
    · rw [if_pos hb]; simp
    · rw [if_neg hb]
      have := ih (attempt + 1) (try_connect_extension (env attempt)).2
        (if attempt < MAX_RETRY_COUNT then sl + 1 else sl) (by omega)
      omega

/-- The whole retry loop when every round fails. -/
theorem connectLoop_all_fail (env : Nat → Round)
    (hf : ∀ j, 1 ≤ j → j ≤ MAX_RETRY_COUNT → (try_connect_extension (env j)).1 = false) :
    connectLoop env =
      { connected := false, lastErr := (try_connect_extension (env MAX_RETRY_COUNT)).2,
        rounds := MAX_RETRY_COUNT, sleeps := MAX_RETRY_COUNT - 1 } := by
  have h := connectLoopAux_fail_char env MAX_RETRY_COUNT 1 none 0 (by omega) (by decide) hf
  rw [connectLoop, h]
  simp

/-- The whole retry loop when round `k` is the first accepted round. -/
theorem connectLoop_first_success (env : Nat → Round) (k : Nat)
    (h1 : 1 ≤ k) (hk : k ≤ MAX_RETRY_COUNT)
    (hf : ∀ j, 1 ≤ j → j < k → (try_connect_extension (env j)).1 = false)
    (hs : (try_connect_extension (env k)).1 = true) :
    connectLoop env =
      { connected := true,
        lastErr := if k = 1 then none else (try_connect_extension (env (k - 1))).2,
        rounds := k, sleeps := k - 1 } := by
  have h := connectLoopAux_success_char env MAX_RETRY_COUNT 1 k none 0 (by omega) h1 hk hf hs
  rw [connectLoop, h]
  simp

/-- C5: the retry loop runs at most `MAX_RETRY_COUNT` numbered rounds; each
round is one `try_connect_extension`, which re-runs discovery and tries the
discovered candidates in order, stopping at the first accepted one; a sleep
happens after every failed round except the final one (`k - 1` sleeps when
round `k` is the first success, `MAX_RETRY_COUNT - 1` when all fail); and on
overall failure the reported error is the one most recently recorded, i.e. the
final round's. -/
theorem retry_loop_policy (env : Nat → Round) :
    ((connectLoop env).rounds ≤ MAX_RETRY_COUNT)
    ∧ ((∀ j, 1 ≤ j → j ≤ MAX_RETRY_COUNT → (try_connect_extension (env j)).1 = false) →
        connectLoop env =
          { connected := false, lastErr := (try_connect_extension (env MAX_RETRY_COUNT)).2,
            rounds := MAX_RETRY_COUNT, sleeps := MAX_RETRY_COUNT - 1 })
    ∧ (∀ k, 1 ≤ k → k ≤ MAX_RETRY_COUNT →
        (∀ j, 1 ≤ j → j < k → (try_connect_extension (env j)).1 = false) →
        (try_connect_extension (env k)).1 = true →
        connectLoop env =
          { connected := true,
            lastErr := if k = 1 then none else (try_connect_extension (env (k - 1))).2,
            rounds := k, sleeps := k - 1 })
    ∧ (∀ rd : Round, try_connect_extension rd =
        connectPorts ((discover_extension_ports rd.dirState).map fun p => (p, rd.net p)) none)
    ∧ (∀ (p : Int) (r : ConnResult) (rest : List (Int × ConnResult)) (le : Option String),
        portStep p r = .accepted → connectPorts ((p, r) :: rest) le = (true, none)) := by
  refine ⟨?_, connectLoop_all_fail env, connectLoop_first_success env, fun rd => rfl,
    fun p r rest le h => ?_⟩
  · have h := connectLoopAux_rounds_le env MAX_RETRY_COUNT 1 none 0 le_rfl
    rw [connectLoop]
    omega
  · simp [connectPorts, h]

/-- C5 witness: with the default port accepting immediately, the loop stops
after the first round with no sleep and no recorded error. -/
theorem retry_loop_policy_witness :
    connectLoop envAccept =
      { connected := true, lastErr := none, rounds := 1, sleeps := 0 } := by
  have h := (retry_loop_policy envAccept).2.2.1 1 (by decide) (by decide)
    (fun j hj hj2 => absurd (Nat.lt_of_le_of_lt hj hj2) (Nat.lt_irrefl 1)) rfl
  simpa using h

/-- C4: when no round is accepted, `request_user_input` runs exactly
`MAX_RETRY_COUNT` rounds, pops the pending request (final registry empty),
and returns the failure outcome carrying the recorded error text — whatever
callback may or may not come later, it never starts the indefinite wait. -/
theorem ask_connect_failed (rid : String) (env : Nat → Round)
    (hf : ∀ j, 1 ≤ j → j ≤ MAX_RETRY_COUNT → (try_connect_extension (env j)).1 = false) :
    (∀ callback, request_user_input rid env callback =
        (some (false, connectFailMsg (try_connect_extension (env MAX_RETRY_COUNT)).2), []))
    ∧ connectLoop env =
        { connected := false, lastErr := (try_connect_extension (env MAX_RETRY_COUNT)).2,
          rounds := MAX_RETRY_COUNT, sleeps := MAX_RETRY_COUNT - 1 } := by
  have h := connectLoop_all_fail env hf
  refine ⟨fun callback => ?_, h⟩
  simp [request_user_input, h]

/-- C4 witness: with every port refusing the TCP connection in every round,
the ask returns the connect-failure outcome after 5 rounds (even with no
callback at all), with the registry empty. -/
theorem ask_connect_failed_witness :
    request_user_input "req_w" envRefuse none =
      (some (false, connectFailMsg (try_connect_extension (envRefuse MAX_RETRY_COUNT)).2), []) ∧
    connectLoop envRefuse =
      { connected := false, lastErr := (try_connect_extension (envRefuse MAX_RETRY_COUNT)).2,
        rounds := MAX_RETRY_COUNT, sleeps := MAX_RETRY_COUNT - 1 } := by
  have h := ask_connect_failed "req_w" envRefuse (fun j hj hj2 => rfl)
  exact ⟨h.1 none, h.2⟩

/-- C2: when some round is accepted and the companion then POSTs `/response`
with the request's id, a non-empty `userInput` and `cancelled = false`, the
ask returns success carrying exactly that `userInput`, and the registry entry
is removed by the resolution. -/
theorem ask_answered (rid ui : String) (env : Nat → Round) (k : Nat)
    (h1 : 1 ≤ k) (hk : k ≤ MAX_RETRY_COUNT)
    (hacc : (try_connect_extension (env k)).1 = true) (_hui : ui ≠ "") :
    request_user_input rid env (some (.parsed (some rid) ui false)) =
      (some (true, ui), []) := by
  have hc : (connectLoop env).connected = true :=
    connectLoopAux_connected env MAX_RETRY_COUNT 1 none 0 k h1 (by omega) hacc
  simp [request_user_input, hc, do_POST]

/-- C2 witness: acceptance on the first round, then the callback
`{"requestId": "req_w", "userInput": "go on", "cancelled": false}` yields
`(True, "go on")` with the registry empty. -/
theorem ask_answered_witness :
    request_user_input "req_w" envAccept (some (.parsed (some "req_w") "go on" false)) =
      (some (true, "go on"), []) :=
  ask_answered "req_w" "go on" envAccept 1 (by decide) (by decide) rfl (by decide)

/-- C3: when some round is accepted and the companion then POSTs `/response`
with the request's id and `cancelled = true`, the ask returns the cancellation
outcome `(False, "用户取消了对话")` with the registry entry removed — and that
outcome differs from every connect-failure outcome
`(False, connectFailMsg …)`. -/
theorem ask_cancelled (rid u : String) (env : Nat → Round) (k : Nat)
    (h1 : 1 ≤ k) (hk : k ≤ MAX_RETRY_COUNT)
    (hacc : (try_connect_extension (env k)).1 = true) :
    request_user_input rid env (some (.parsed (some rid) u true)) =
      (some (false, cancelMsg), [])
    ∧ ∀ e : Option String, cancelMsg ≠ connectFailMsg e := by
  constructor
  · have hc : (connectLoop env).connected = true :=
      connectLoopAux_connected env MAX_RETRY_COUNT 1 none 0 k h1 (by omega) hacc
    simp [request_user_input, hc, do_POST]
  · intro e h
    have hlen : (connectFailMsg e).length =
        ("无法连接到 VS Code 扩展（已重试 " ++ toString MAX_RETRY_COUNT ++ " 次）。"
          : String).length + (e.getD "").length := by
      simp [connectFailMsg, String.length_append]
    have hbase : ("无法连接到 VS Code 扩展（已重试 " ++ toString MAX_RETRY_COUNT
        ++ " 次）。" : String).length = 26 := by decide
    have hcm : cancelMsg.length = 7 := by decide
    rw [h] at hcm
    omega

/-- C3 witness: acceptance on the first round, then the callback
`{"requestId": "req_w", "cancelled": true}` yields the cancellation outcome,
which is not the connect-failure message built from an empty error. -/
theorem ask_cancelled_witness :
    request_user_input "req_w" envAccept (some (.parsed (some "req_w") "" true)) =
      (some (false, cancelMsg), [])
    ∧ cancelMsg ≠ connectFailMsg none := by
  have h := ask_cancelled "req_w" "" envAccept 1 (by decide) (by decide) rfl
  exact ⟨h.1, h.2 none⟩

/-- C7 witness: a directory with one valid marker file `a.port` naming port 7
yields exactly `[7]`. -/
theorem discovery_behavior_witness :
    discover_extension_ports (some [("a.port", some 7)]) = [7] := by
  have h := discovery_behavior.2.2.1 [("a.port", some 7)] (by decide)
  rw [h]
  decide

/-- When every probe in range hits address-in-use, the bind loop exhausts its
range: no readiness signal, no saved port. -/
theorem bindLoopAux_exhaust (env : Nat → BindResult) :
    ∀ (fuel port tried : Nat),
      (∀ i, i < fuel → env (port + i) = .addrInUse) →
      bindLoopAux env fuel port tried =
        { ready := false, boundPort := none, attempts := tried + fuel } := by
  intro fuel
  induction fuel with
  | zero => intro port tried h; simp [bindLoopAux]
  | succ f ih =>
    intro port tried h
    have h0 : env port = .addrInUse := by simpa using h 0 (Nat.succ_pos f)
    simp only [bindLoopAux, h0]
    rw [ih (port + 1) (tried + 1) (fun i hi => by
      have := h (i + 1) (by omega)
      rwa [show port + (i + 1) = port + 1 + i by omega] at this)]
    simp only [SrvOutcome.mk.injEq, true_and]
    omega

/-- When probe `i` is the first whose bind result is not address-in-use, the
loop signals readiness there, after `i + 1` attempts, saving the port on a
successful bind. -/
theorem bindLoopAux_signals (env : Nat → BindResult) :
    ∀ (fuel i port tried : Nat),
      i < fuel →
      (∀ j, j < i → env (port + j) = .addrInUse) →
      env (port + i) ≠ .addrInUse →
      (bindLoopAux env fuel port tried).ready = true ∧
      (bindLoopAux env fuel port tried).attempts = tried + i + 1 ∧
      (env (port + i) = .bindOk →
        (bindLoopAux env fuel port tried).boundPort = some (port + i)) := by
  intro fuel
  induction fuel with
  | zero => intro i port tried hi hj hne; omega
  | succ f ih =>
    intro i port tried hi hj hne
    cases i with
    | zero =>
      rw [Nat.add_zero] at hne ⊢
      cases henv : env port with
      | bindOk => simp [bindLoopAux, henv]
      | addrInUse => exact absurd henv hne
      | otherOSError m => simp [bindLoopAux, henv]
      | otherExc m => simp [bindLoopAux, henv]
    | succ n =>
      have h0 : env port = .addrInUse := hj 0 (Nat.succ_pos n)
      simp only [bindLoopAux, h0]
      have hrec := ih n (port + 1) (tried + 1) (by omega)
        (fun j hjj => by
          have := hj (j + 1) (by omega)
          rwa [show port + (j + 1) = port + 1 + j by omega] at this)
        (by rwa [show port + (n + 1) = port + 1 + n by omega] at hne)
      have hport : port + 1 + n = port + (n + 1) := by omega
      rw [hport] at hrec
      exact ⟨hrec.1, by omega, hrec.2.2⟩

/-- C9 counterexample: when all 50 probed ports are in use, the bind loop
falls out of its range without ever signalling readiness — the run terminates
with `ready = false`, contradicting the claim that every terminating run
signals readiness (success or readiness-with-failure). -/
theorem bind_exhaustion_counterexample :
    start_callback_server (fun _ => .addrInUse) =
      { ready := false, boundPort := none, attempts := 50 } ∧
    ¬ (start_callback_server (fun _ => .addrInUse)).ready = true := by
  decide

/-- C9 (amended): the bind loop starts at `CALLBACK_PORT_START` and, on each
address-in-use failure, increments the port and retries, up to
`bind_max_retries = 50` attempts; it signals readiness whenever some probe in
range does not fail with address-in-use — both on a successful bind (saving
the bound port) and on any other bind error (readiness-with-failure) — but
when the whole probe range is exhausted by address-in-use failures it returns
without signalling readiness (startup then relies on its own 5-second wait
timeout). -/
theorem bind_loop_behavior (env : Nat → BindResult) :
    ((∀ i, i < bind_max_retries → env (CALLBACK_PORT_START + i) = .addrInUse) →
      start_callback_server env =
        { ready := false, boundPort := none, attempts := bind_max_retries })
    ∧ (∀ i, i < bind_max_retries →
        (∀ j, j < i → env (CALLBACK_PORT_START + j) = .addrInUse) →
        env (CALLBACK_PORT_START + i) ≠ .addrInUse →
        (start_callback_server env).ready = true ∧
        (start_callback_server env).attempts = i + 1 ∧
        (env (CALLBACK_PORT_START + i) = .bindOk →
          (start_callback_server env).boundPort = some (CALLBACK_PORT_START + i))) := by
  constructor
  · intro h
    have hx := bindLoopAux_exhaust env bind_max_retries CALLBACK_PORT_START 0 h
    rw [start_callback_server, hx]
    simp
  · intro i hi hj hne
    have hx := bindLoopAux_signals env bind_max_retries i CALLBACK_PORT_START 0 hi hj hne
    rw [start_callback_server]
    exact ⟨hx.1, by omega, hx.2.2⟩

/-- C9 witness: a first probe that binds successfully yields readiness on the
starting port after one attempt. -/
theorem bind_loop_behavior_witness :
    (start_callback_server (fun _ => .bindOk)).ready = true ∧
    (start_callback_server (fun _ => .bindOk)).attempts = 1 ∧
    (start_callback_server (fun _ => .bindOk)).boundPort = some CALLBACK_PORT_START := by
  have h := (bind_loop_behavior (fun _ => .bindOk)).2 0 (by decide)
    (fun j hj => absurd hj (Nat.not_lt_zero j)) (by decide)
  exact ⟨h.1, h.2.1, by simpa using h.2.2 rfl⟩

end AskContinue
